import Mathlib

/-!
Verification of the version-metadata macro layer in `src/windres/resource.h`
of the zabbix-agent2-plugin-postgresql repository.

The header is a C-preprocessor template: the external build collaborator may
pre-bind each version macro (`ZABBIX_VERSION_MAJOR`, ..., `ZABBIX_LICENSE_YEARS`)
to a token text; for each macro guarded by `#ifndef` the header substitutes a
built-in placeholder literal (e.g. `\x7bZABBIX_VERSION_MAJOR\x7d`) when the
macro is unbound.  The `VER_*` macros then compose the version strings and
numeric tuples by token pasting and stringification (`ZBX_STR`).

We embed the macro layer shallowly: an external binding is an
`Option String` per macro (the token text the collaborator defines, or
`none` when unbound); the defaulting layer and the `VER_*` compositions are
Lean functions over these texts, mirroring lines 22-55 of the header.
-/

/-- External macro bindings supplied by the build collaborator: for each macro
of `resource.h`, either the token text it is `#define`d to before the header
is included, or `none` when the macro is left undefined. -/
structure Bindings where
  fileDescription : Option String
  major : Option String
  minor : Option String
  patch : Option String
  rc : Option String
  rcNum : Option String
  revision : Option String
  licenseYears : Option String
deriving DecidableEq

/-- `#define ZBX_STR2(str) #str` / `#define ZBX_STR(str) ZBX_STR2(str)`:
stringification of a fully macro-expanded token text is the text itself. -/
def ZBX_STR (s : String) : String := s

/-- Line 26: `#ifndef VER_FILEDESCRIPTION_STR` default. -/
def fileDescriptionText (b : Bindings) : String :=
  b.fileDescription.getD "\x7bVER_FILEDESCRIPTION_STR\x7d"

/-- Line 29: `#ifndef ZABBIX_VERSION_MAJOR` default. -/
def majorText (b : Bindings) : String :=
  b.major.getD "\x7bZABBIX_VERSION_MAJOR\x7d"

/-- Line 32: `#ifndef ZABBIX_VERSION_MINOR` default. -/
def minorText (b : Bindings) : String :=
  b.minor.getD "\x7bZABBIX_VERSION_MINOR\x7d"

/-- Line 35: `#ifndef ZABBIX_VERSION_PATCH` default. -/
def patchText (b : Bindings) : String :=
  b.patch.getD "\x7bZABBIX_VERSION_PATCH\x7d"

/-- Line 38: `#ifndef ZABBIX_VERSION_RC` default. -/
def rcText (b : Bindings) : String :=
  b.rc.getD "\x7bZABBIX_VERSION_RC\x7d"

/-- Line 41: `#ifndef ZABBIX_VERSION_RC_NUM` default (note the placeholder is
spelled `ZABBIX_RC_NUM` in the source). -/
def rcNumText (b : Bindings) : String :=
  b.rcNum.getD "\x7bZABBIX_RC_NUM\x7d"

/-- Line 44: `#ifndef ZABBIX_LICENSE_YEARS` default. -/
def licenseYearsText (b : Bindings) : String :=
  b.licenseYears.getD "\x7bZABBIX_LICENSE_YEARS\x7d"

/-- `ZABBIX_VERSION_REVISION` has no `#ifndef` default block in the header.
When unbound, `ZBX_STR(ZABBIX_VERSION_REVISION)` stringifies the undefined
macro's own name. -/
def revisionText (b : Bindings) : String :=
  b.revision.getD "ZABBIX_VERSION_REVISION"

/-- The seven built-in placeholder defaults the `#ifndef` blocks (lines 25-45)
can substitute. -/
def builtinDefaults : List String :=
  ["\x7bVER_FILEDESCRIPTION_STR\x7d", "\x7bZABBIX_VERSION_MAJOR\x7d",
   "\x7bZABBIX_VERSION_MINOR\x7d", "\x7bZABBIX_VERSION_PATCH\x7d",
   "\x7bZABBIX_VERSION_RC\x7d", "\x7bZABBIX_RC_NUM\x7d",
   "\x7bZABBIX_LICENSE_YEARS\x7d"]

/-- Line 47: `VER_FILEVERSION` is the comma-separated token 4-tuple
`ZABBIX_VERSION_MAJOR,ZABBIX_VERSION_MINOR,ZABBIX_VERSION_PATCH,ZABBIX_VERSION_RC_NUM`. -/
def VER_FILEVERSION (b : Bindings) : String × String × String × String :=
  (majorText b, minorText b, patchText b, rcNumText b)

/-- Lines 48-49: `VER_FILEVERSION_STR`, dot-joined stringifications of major,
minor, patch, revision, with an explicit trailing `\0`. -/
def VER_FILEVERSION_STR (b : Bindings) : String :=
  ZBX_STR (majorText b) ++ "." ++ ZBX_STR (minorText b) ++ "." ++
    ZBX_STR (patchText b) ++ "." ++ ZBX_STR (revisionText b) ++ "\x00"

/-- Line 50: `VER_PRODUCTVERSION` is the comma-separated token 3-tuple
`ZABBIX_VERSION_MAJOR,ZABBIX_VERSION_MINOR,ZABBIX_VERSION_PATCH`. -/
def VER_PRODUCTVERSION (b : Bindings) : String × String × String :=
  (majorText b, minorText b, patchText b)

/-- Lines 51-52: `VER_PRODUCTVERSION_STR`, dot-joined major, minor, patch,
then the RC tag pasted directly (no separator), then an explicit `\0`. -/
def VER_PRODUCTVERSION_STR (b : Bindings) : String :=
  ZBX_STR (majorText b) ++ "." ++ ZBX_STR (minorText b) ++ "." ++
    ZBX_STR (patchText b) ++ rcText b ++ "\x00"

/-- Line 53: `VER_COMPANYNAME_STR "Zabbix SIA\0"`. -/
def VER_COMPANYNAME_STR : String := "Zabbix SIA\x00"

/-- Line 54: `VER_LEGALCOPYRIGHT_STR "Copyright (C) " ZABBIX_LICENSE_YEARS " " VER_COMPANYNAME_STR`. -/
def VER_LEGALCOPYRIGHT_STR (b : Bindings) : String :=
  "Copyright (C) " ++ licenseYearsText b ++ " " ++ VER_COMPANYNAME_STR

/-- Line 55: `VER_PRODUCTNAME_STR "Zabbix\0"`. -/
def VER_PRODUCTNAME_STR : String := "Zabbix\x00"

/-- A token text is a non-negative integer numeral: non-empty, digits only. -/
def isNumeral (s : String) : Bool :=
  !s.data.isEmpty && s.data.all Char.isDigit

/-- The numeric value of a digit text. -/
def natOfDigits (l : List Char) : Nat :=
  l.foldl (fun n c => 10 * n + (c.toNat - 48)) 0

/-- Parse a token text as a non-negative integer; `none` when the text is not
a numeral (empty, signed, non-integral, or a `\x7b...\x7d` placeholder). -/
def parseNat? (s : String) : Option Nat :=
  if isNumeral s then some (natOfDigits s.data) else none

/-- The resolved version descriptor: the numeric tuples and strings the
resource-embedding collaborator consumes. -/
structure VersionDescriptor where
  numericFileVersion : Nat × Nat × Nat × Nat
  numericProductVersion : Nat × Nat × Nat
  fileVersionString : String
  productVersionString : String
  companyName : String
  productName : String
  legalCopyright : String
deriving DecidableEq

/-- The single error kind of the resolver. -/
inductive ResolveError where
  | invalidComponent
deriving DecidableEq

/-- The descriptor built from validated numeric components and the composed
`VER_*` strings of the header. -/
def mkDescriptor (b : Bindings) (M m p r : Nat) : VersionDescriptor :=
  { numericFileVersion := (M, m, p, r)
    numericProductVersion := (M, m, p)
    fileVersionString := VER_FILEVERSION_STR b
    productVersionString := VER_PRODUCTVERSION_STR b
    companyName := VER_COMPANYNAME_STR
    productName := VER_PRODUCTNAME_STR
    legalCopyright := VER_LEGALCOPYRIGHT_STR b }

/-- Modelled from the spec: the macro layer itself performs no validation
(numeric checking happens in the downstream resource compiler, which is not
under `src/`).  Per the spec's resolver contract, each required numeric
component (major, minor, patch, rc-ordinal) must be a non-negative integer
after defaulting: an unbound component defaults to a non-numeric
`\x7b...\x7d` placeholder and hence fails, as do negative or non-integral
texts; on any failure the resolver returns `InvalidComponent` and no
descriptor. -/
def resolve (b : Bindings) : Except ResolveError VersionDescriptor :=
  match parseNat? (majorText b), parseNat? (minorText b),
        parseNat? (patchText b), parseNat? (rcNumText b) with
  | some M, some m, some p, some r => .ok (mkDescriptor b M m p r)
  | _, _, _, _ => .error .invalidComponent

/-- The text a consumer of the descriptor reads from a string field: the
characters before the first NUL terminator. -/
def cstr (s : String) : String :=
  ⟨s.data.takeWhile (fun c => c != '\x00')⟩

/-! ### Concrete example inputs -/

/-- Example bindings, all macros unbound. -/
def exB0 : Bindings :=
  { fileDescription := none
    major := none
    minor := none
    patch := none
    rc := none
    rcNum := none
    revision := none
    licenseYears := none }

/-- Example bindings: the spec's first worked example,
major 7, minor 2, patch 5, revision 3, empty rc tag, rc ordinal 0,
license years 2001-2025. -/
def exB1 : Bindings :=
  { fileDescription := some "PostgreSQL plugin"
    major := some "7"
    minor := some "2"
    patch := some "5"
    rc := some ""
    rcNum := some "0"
    revision := some "3"
    licenseYears := some "2001-2025" }

/-- Example bindings: the spec's second worked example,
major 7, minor 4, patch 0, rc tag "rc1", rc ordinal 1, revision 0. -/
def exB2 : Bindings :=
  { fileDescription := some "PostgreSQL plugin"
    major := some "7"
    minor := some "4"
    patch := some "0"
    rc := some "rc1"
    rcNum := some "1"
    revision := some "0"
    licenseYears := some "2001-2025" }

/-- Example bindings with a negative major component. -/
def exB5 : Bindings :=
  { fileDescription := some "PostgreSQL plugin"
    major := some "-1"
    minor := some "2"
    patch := some "5"
    rc := some ""
    rcNum := some "0"
    revision := some "3"
    licenseYears := some "2001-2025" }

/-- Example bindings with the optional rc tag and license years unbound. -/
def exB6 : Bindings :=
  { fileDescription := some "PostgreSQL plugin"
    major := some "7"
    minor := some "4"
    patch := some "0"
    rc := none
    rcNum := some "1"
    revision := some "0"
    licenseYears := none }

/-! ### Helper lemmas -/

theorem takeWhile_append_of_all (p : Char → Bool) (l m : List Char)
    (h : ∀ c ∈ l, p c = true) : (l ++ m).takeWhile p = l ++ m.takeWhile p := by
  induction l with
  | nil => simp
  | cons a t ih =>
      simp only [List.cons_append, List.takeWhile_cons, h a (List.mem_cons_self a t), ite_true]
      simp [ih fun c hc => h c (List.mem_cons_of_mem a hc)]

theorem cstr_append_nul (s : String) (h : ∀ c ∈ s.data, c ≠ '\x00') :
    cstr (s ++ "\x00") = s := by
  show String.mk (List.takeWhile _ (s.data ++ ['\x00'])) = s
  rw [takeWhile_append_of_all _ s.data ['\x00']
    (fun c hc => by simpa using h c hc)]
  simp [List.takeWhile]

theorem all_digits_of_numeral (s : String) (h : isNumeral s = true) :
    ∀ c ∈ s.data, c.isDigit = true := by
  have := (Bool.and_eq_true _ _).mp h
  exact List.all_eq_true.mp this.2

theorem ne_nul_of_digit (c : Char) (h : c.isDigit = true) : c ≠ '\x00' := by
  intro hc
  rw [hc] at h
  exact absurd h (by decide)

theorem ne_dot_of_digit (c : Char) (h : c.isDigit = true) : c ≠ '.' := by
  intro hc
  rw [hc] at h
  exact absurd h (by decide)

theorem count_dot_zero_of_numeral (s : String) (h : isNumeral s = true) :
    s.data.count '.' = 0 := by
  refine List.count_eq_zero.mpr fun hmem => ?_
  exact ne_dot_of_digit '.' (all_digits_of_numeral s h '.' hmem) rfl

theorem numeral_of_parse (s : String) (n : Nat) (h : parseNat? s = some n) :
    isNumeral s = true := by
  unfold parseNat? at h
  by_cases hn : isNumeral s = true
  · exact hn
  · rw [if_neg hn] at h
    exact absurd h (by simp)

theorem resolve_ok_inv (b : Bindings) (d : VersionDescriptor)
    (h : resolve b = Except.ok d) :
    ∃ M m p r, parseNat? (majorText b) = some M ∧ parseNat? (minorText b) = some m ∧
      parseNat? (patchText b) = some p ∧ parseNat? (rcNumText b) = some r ∧
      d = mkDescriptor b M m p r := by
  unfold resolve at h
  cases hM : parseNat? (majorText b) <;> rw [hM] at h <;>
    cases hm : parseNat? (minorText b) <;> rw [hm] at h <;>
      cases hp : parseNat? (patchText b) <;> rw [hp] at h <;>
        cases hr : parseNat? (rcNumText b) <;> rw [hr] at h <;>
          simp only [Except.error.injEq, Except.ok.injEq, reduceCtorEq] at h
  exact ⟨_, _, _, _, rfl, rfl, rfl, rfl, h.symm⟩

theorem data_dotjoin4 (w x y z : String) :
    (w ++ "." ++ x ++ "." ++ y ++ "." ++ z).data
      = w.data ++ ['.'] ++ x.data ++ ['.'] ++ y.data ++ ['.'] ++ z.data := rfl

theorem nonul_dotjoin4 (w x y z : String)
    (hw : isNumeral w = true) (hx : isNumeral x = true)
    (hy : isNumeral y = true) (hz : isNumeral z = true) :
    ∀ c ∈ (w ++ "." ++ x ++ "." ++ y ++ "." ++ z).data, c ≠ '\x00' := by
  intro c hc
  rw [data_dotjoin4] at hc
  have hc' : c ∈ w.data ∨ c ∈ x.data ∨ c ∈ y.data ∨ c ∈ z.data ∨ c = '.' := by
    simp only [List.mem_append, List.mem_singleton] at hc
    tauto
  rcases hc' with hc' | hc' | hc' | hc' | hc'
  · exact ne_nul_of_digit c (all_digits_of_numeral w hw c hc')
  · exact ne_nul_of_digit c (all_digits_of_numeral x hx c hc')
  · exact ne_nul_of_digit c (all_digits_of_numeral y hy c hc')
  · exact ne_nul_of_digit c (all_digits_of_numeral z hz c hc')
  · rw [hc']; decide

/-- C1: for every input accepted by the resolver whose revision component is
bound to a non-negative integer numeral, the file version string (read as a C
string, i.e. up to the NUL terminator the source appends) is exactly the
major, minor, patch and revision texts in that order joined by `.`; each of
the four segments is an integer numeral (hence dot-free) and the string
contains exactly three `.` separators, so it has exactly four dot-separated
integer segments. -/
theorem fileVersionString_four_dotted_numerals (b : Bindings) (d : VersionDescriptor)
    (hres : resolve b = Except.ok d)
    (z : String) (hz : b.revision = some z) (hzn : isNumeral z = true) :
    isNumeral (majorText b) = true ∧ isNumeral (minorText b) = true ∧
    isNumeral (patchText b) = true ∧
    cstr d.fileVersionString =
      majorText b ++ "." ++ minorText b ++ "." ++ patchText b ++ "." ++ z ∧
    (cstr d.fileVersionString).data.count '.' = 3 := by
  obtain ⟨M, m, p, r, hM, hm, hp, hr, hd⟩ := resolve_ok_inv b d hres
  have nM := numeral_of_parse _ _ hM
  have nm := numeral_of_parse _ _ hm
  have np := numeral_of_parse _ _ hp
  have hrev : revisionText b = z := by simp [revisionText, hz]
  have hfv : d.fileVersionString =
      (majorText b ++ "." ++ minorText b ++ "." ++ patchText b ++ "." ++ z) ++ "\x00" := by
    rw [hd]
    show VER_FILEVERSION_STR b = _
    rw [VER_FILEVERSION_STR, ZBX_STR, ZBX_STR, ZBX_STR, ZBX_STR, hrev]
  have hcs : cstr d.fileVersionString =
      majorText b ++ "." ++ minorText b ++ "." ++ patchText b ++ "." ++ z := by
    rw [hfv]
    exact cstr_append_nul _ (nonul_dotjoin4 _ _ _ _ nM nm np hzn)
  refine ⟨nM, nm, np, hcs, ?_⟩
  rw [hcs, data_dotjoin4]
  simp [List.count_append, count_dot_zero_of_numeral _ nM,
    count_dot_zero_of_numeral _ nm, count_dot_zero_of_numeral _ np,
    count_dot_zero_of_numeral _ hzn]

/-- Witness for C1 at the concrete example bindings. -/
theorem fileVersionString_four_dotted_numerals_witness :
    isNumeral (majorText exB1) = true ∧ isNumeral (minorText exB1) = true ∧
    isNumeral (patchText exB1) = true ∧
    cstr (mkDescriptor exB1 7 2 5 0).fileVersionString =
      majorText exB1 ++ "." ++ minorText exB1 ++ "." ++ patchText exB1 ++ "." ++ "3" ∧
    (cstr (mkDescriptor exB1 7 2 5 0).fileVersionString).data.count '.' = 3 :=
  fileVersionString_four_dotted_numerals exB1 (mkDescriptor exB1 7 2 5 0)
    rfl "3" rfl (by decide)

theorem data_dotjoin3_tag (w x y t : String) :
    (w ++ "." ++ x ++ "." ++ y ++ t).data
      = w.data ++ ['.'] ++ x.data ++ ['.'] ++ y.data ++ t.data := rfl

theorem nonul_dotjoin3_tag (w x y t : String)
    (hw : isNumeral w = true) (hx : isNumeral x = true) (hy : isNumeral y = true)
    (ht : ∀ c ∈ t.data, c ≠ '\x00') :
    ∀ c ∈ (w ++ "." ++ x ++ "." ++ y ++ t).data, c ≠ '\x00' := by
  intro c hc
  rw [data_dotjoin3_tag] at hc
  have hc' : c ∈ w.data ∨ c ∈ x.data ∨ c ∈ y.data ∨ c ∈ t.data ∨ c = '.' := by
    simp only [List.mem_append, List.mem_singleton] at hc
    tauto
  rcases hc' with hc' | hc' | hc' | hc' | hc'
  · exact ne_nul_of_digit c (all_digits_of_numeral w hw c hc')
  · exact ne_nul_of_digit c (all_digits_of_numeral x hx c hc')
  · exact ne_nul_of_digit c (all_digits_of_numeral y hy c hc')
  · exact ht c hc'
  · rw [hc']; decide

/-- C2: for every input accepted by the resolver whose rc tag component is
bound to a NUL-free text, the product version string is the major, minor and
patch texts joined by `.` with the tag appended directly afterwards — no
separator inserted, the tag taken verbatim (so an empty tag appends
nothing) — followed by the NUL terminator the source appends; its C-string
text is exactly the dotted triple followed by the verbatim tag. -/
theorem productVersionString_tag_direct (b : Bindings) (d : VersionDescriptor)
    (hres : resolve b = Except.ok d)
    (t : String) (ht : b.rc = some t) (htn : ∀ c ∈ t.data, c ≠ '\x00') :
    d.productVersionString =
      majorText b ++ "." ++ minorText b ++ "." ++ patchText b ++ t ++ "\x00" ∧
    cstr d.productVersionString =
      majorText b ++ "." ++ minorText b ++ "." ++ patchText b ++ t := by
  obtain ⟨M, m, p, r, hM, hm, hp, hr, hd⟩ := resolve_ok_inv b d hres
  have nM := numeral_of_parse _ _ hM
  have nm := numeral_of_parse _ _ hm
  have np := numeral_of_parse _ _ hp
  have hrc : rcText b = t := by simp [rcText, ht]
  have hpv : d.productVersionString =
      (majorText b ++ "." ++ minorText b ++ "." ++ patchText b ++ t) ++ "\x00" := by
    rw [hd]
    show VER_PRODUCTVERSION_STR b = _
    rw [VER_PRODUCTVERSION_STR, ZBX_STR, ZBX_STR, ZBX_STR, hrc]
  refine ⟨hpv, ?_⟩
  rw [hpv]
  exact cstr_append_nul _ (nonul_dotjoin3_tag _ _ _ _ nM nm np htn)

/-- Witness for C2 at the spec's second worked example (tag "rc1"):
the product version string reads "7.4.0rc1". -/
theorem productVersionString_tag_direct_witness :
    (mkDescriptor exB2 7 4 0 1).productVersionString =
      majorText exB2 ++ "." ++ minorText exB2 ++ "." ++ patchText exB2 ++ "rc1" ++ "\x00" ∧
    cstr (mkDescriptor exB2 7 4 0 1).productVersionString =
      majorText exB2 ++ "." ++ minorText exB2 ++ "." ++ patchText exB2 ++ "rc1" :=
  productVersionString_tag_direct exB2 (mkDescriptor exB2 7 4 0 1)
    rfl "rc1" rfl (by decide)

/-- C3: for every input accepted by the resolver, the numeric file version is
the ordered 4-tuple of the parsed major, minor, patch and rc-ordinal
components and the numeric product version is the ordered 3-tuple of the
parsed major, minor and patch components — a direct field mapping, no
transformation, declared order preserved (and agreeing componentwise with the
token tuples `VER_FILEVERSION` / `VER_PRODUCTVERSION`). -/
theorem numeric_tuples_direct_mapping (b : Bindings) (d : VersionDescriptor)
    (M m p r : Nat)
    (hM : parseNat? (majorText b) = some M) (hm : parseNat? (minorText b) = some m)
    (hp : parseNat? (patchText b) = some p) (hr : parseNat? (rcNumText b) = some r)
    (hres : resolve b = Except.ok d) :
    d.numericFileVersion = (M, m, p, r) ∧
    d.numericProductVersion = (M, m, p) ∧
    VER_FILEVERSION b = (majorText b, minorText b, patchText b, rcNumText b) ∧
    VER_PRODUCTVERSION b = (majorText b, minorText b, patchText b) := by
  obtain ⟨M', m', p', r', hM', hm', hp', hr', hd⟩ := resolve_ok_inv b d hres
  rw [hM] at hM'
  rw [hm] at hm'
  rw [hp] at hp'
  rw [hr] at hr'
  cases hM'
  cases hm'
  cases hp'
  cases hr'
  rw [hd]
  exact ⟨rfl, rfl, rfl, rfl⟩

/-- Witness for C3 at the concrete example bindings. -/
theorem numeric_tuples_direct_mapping_witness :
    (mkDescriptor exB1 7 2 5 0).numericFileVersion = (7, 2, 5, 0) ∧
    (mkDescriptor exB1 7 2 5 0).numericProductVersion = (7, 2, 5) ∧
    VER_FILEVERSION exB1 = (majorText exB1, minorText exB1, patchText exB1, rcNumText exB1) ∧
    VER_PRODUCTVERSION exB1 = (majorText exB1, minorText exB1, patchText exB1) :=
  numeric_tuples_direct_mapping exB1 (mkDescriptor exB1 7 2 5 0) 7 2 5 0
    (by decide) (by decide) (by decide) (by decide) rfl

/-- C7: for every input accepted by the resolver whose license-years component
is bound, the legal copyright string is the fixed "Copyright (C) " literal,
the supplied years span verbatim (no validation or computation on it), a
space, and the fixed company-name literal — so it contains the years text
exactly as supplied, followed by the fixed company name. -/
theorem legalCopyright_years_verbatim (b : Bindings) (d : VersionDescriptor)
    (hres : resolve b = Except.ok d)
    (y : String) (hy : b.licenseYears = some y) :
    d.legalCopyright = "Copyright (C) " ++ y ++ " " ++ VER_COMPANYNAME_STR ∧
    d.legalCopyright = "Copyright (C) " ++ y ++ (" " ++ VER_COMPANYNAME_STR) ∧
    VER_COMPANYNAME_STR = "Zabbix SIA\x00" := by
  obtain ⟨M, m, p, r, hM, hm, hp, hr, hd⟩ := resolve_ok_inv b d hres
  have hly : licenseYearsText b = y := by simp [licenseYearsText, hy]
  have h1 : d.legalCopyright = "Copyright (C) " ++ y ++ " " ++ VER_COMPANYNAME_STR := by
    rw [hd]
    show VER_LEGALCOPYRIGHT_STR b = _
    rw [VER_LEGALCOPYRIGHT_STR, hly]
  exact ⟨h1, by rw [h1, String.append_assoc], rfl⟩

/-- Witness for C7 at the concrete example bindings. -/
theorem legalCopyright_years_verbatim_witness :
    (mkDescriptor exB1 7 2 5 0).legalCopyright =
      "Copyright (C) " ++ "2001-2025" ++ " " ++ VER_COMPANYNAME_STR ∧
    (mkDescriptor exB1 7 2 5 0).legalCopyright =
      "Copyright (C) " ++ "2001-2025" ++ (" " ++ VER_COMPANYNAME_STR) ∧
    VER_COMPANYNAME_STR = "Zabbix SIA\x00" :=
  legalCopyright_years_verbatim exB1 (mkDescriptor exB1 7 2 5 0) rfl "2001-2025" rfl

/-- C8: the resolver is deterministic — it is a pure function of the
bindings, so identical inputs give identical results, and when both runs
succeed every string field and both numeric tuples of the two descriptors
coincide. -/
theorem resolve_deterministic (b₁ b₂ : Bindings) (h : b₁ = b₂) :
    resolve b₁ = resolve b₂ ∧
    ∀ d₁ d₂, resolve b₁ = Except.ok d₁ → resolve b₂ = Except.ok d₂ →
      d₁.numericFileVersion = d₂.numericFileVersion ∧
      d₁.numericProductVersion = d₂.numericProductVersion ∧
      d₁.fileVersionString = d₂.fileVersionString ∧
      d₁.productVersionString = d₂.productVersionString ∧
      d₁.companyName = d₂.companyName ∧
      d₁.productName = d₂.productName ∧
      d₁.legalCopyright = d₂.legalCopyright := by
  subst h
  refine ⟨rfl, fun d₁ d₂ h₁ h₂ => ?_⟩
  rw [h₁] at h₂
  cases h₂
  exact ⟨rfl, rfl, rfl, rfl, rfl, rfl, rfl⟩

/-- Witness for C8 at the concrete example bindings. -/
theorem resolve_deterministic_witness :
    resolve exB1 = resolve exB1 ∧
    (mkDescriptor exB1 7 2 5 0).fileVersionString =
      (mkDescriptor exB1 7 2 5 0).fileVersionString :=
  ⟨(resolve_deterministic exB1 exB1 rfl).1,
   ((resolve_deterministic exB1 exB1 rfl).2
      (mkDescriptor exB1 7 2 5 0) (mkDescriptor exB1 7 2 5 0) rfl rfl).2.2.1⟩

/-- C9: the spec's first worked example — bindings
major 7, minor 2, patch 5, revision 3, empty rc tag, rc ordinal 0, license
years 2001-2025 resolve successfully; the file version string reads
"7.2.5.3", the product version string reads "7.2.5", the numeric file
version is (7, 2, 5, 0), and the legal copyright contains "2001-2025". -/
theorem example_resolution_7_2_5_3 :
    resolve exB1 = Except.ok (mkDescriptor exB1 7 2 5 0) ∧
    cstr (mkDescriptor exB1 7 2 5 0).fileVersionString = "7.2.5.3" ∧
    cstr (mkDescriptor exB1 7 2 5 0).productVersionString = "7.2.5" ∧
    (mkDescriptor exB1 7 2 5 0).numericFileVersion = (7, 2, 5, 0) ∧
    (mkDescriptor exB1 7 2 5 0).legalCopyright =
      "Copyright (C) " ++ "2001-2025" ++ " Zabbix SIA\x00" :=
  ⟨rfl, by decide, by decide, rfl, by decide⟩

/-- C10: for every input accepted by the resolver, each of the five string
fields of the descriptor ends in an explicitly appended NUL character: each
equals a text followed by "\x00", and the legal copyright inherits its NUL
from the trailing company-name literal it is built from. -/
theorem string_fields_nul_terminated (b : Bindings) (d : VersionDescriptor)
    (hres : resolve b = Except.ok d) :
    d.fileVersionString =
      (majorText b ++ "." ++ minorText b ++ "." ++ patchText b ++ "." ++ revisionText b)
        ++ "\x00" ∧
    d.productVersionString =
      (majorText b ++ "." ++ minorText b ++ "." ++ patchText b ++ rcText b) ++ "\x00" ∧
    d.companyName = "Zabbix SIA" ++ "\x00" ∧
    d.productName = "Zabbix" ++ "\x00" ∧
    d.legalCopyright =
      ("Copyright (C) " ++ licenseYearsText b ++ " " ++ "Zabbix SIA") ++ "\x00" ∧
    d.legalCopyright = "Copyright (C) " ++ licenseYearsText b ++ " " ++ VER_COMPANYNAME_STR := by
  obtain ⟨M, m, p, r, hM, hm, hp, hr, hd⟩ := resolve_ok_inv b d hres
  rw [hd]
  refine ⟨rfl, rfl, rfl, rfl, ?_, rfl⟩
  show VER_LEGALCOPYRIGHT_STR b = _
  rw [VER_LEGALCOPYRIGHT_STR]
  rw [show VER_COMPANYNAME_STR = "Zabbix SIA" ++ "\x00" from rfl]
  rw [← String.append_assoc]

/-- Witness for C10 at the concrete example bindings. -/
theorem string_fields_nul_terminated_witness :
    (mkDescriptor exB1 7 2 5 0).fileVersionString =
      (majorText exB1 ++ "." ++ minorText exB1 ++ "." ++ patchText exB1 ++ "." ++
        revisionText exB1) ++ "\x00" ∧
    (mkDescriptor exB1 7 2 5 0).productVersionString =
      (majorText exB1 ++ "." ++ minorText exB1 ++ "." ++ patchText exB1 ++ rcText exB1)
        ++ "\x00" ∧
    (mkDescriptor exB1 7 2 5 0).companyName = "Zabbix SIA" ++ "\x00" ∧
    (mkDescriptor exB1 7 2 5 0).productName = "Zabbix" ++ "\x00" ∧
    (mkDescriptor exB1 7 2 5 0).legalCopyright =
      ("Copyright (C) " ++ licenseYearsText exB1 ++ " " ++ "Zabbix SIA") ++ "\x00" ∧
    (mkDescriptor exB1 7 2 5 0).legalCopyright =
      "Copyright (C) " ++ licenseYearsText exB1 ++ " " ++ VER_COMPANYNAME_STR :=
  string_fields_nul_terminated exB1 (mkDescriptor exB1 7 2 5 0) rfl

/-- C4 counterexample: with every macro unbound, the revision component does
not resolve to any of the built-in placeholder defaults the `#ifndef` blocks
of the header can substitute — the header has no default block for
`ZABBIX_VERSION_REVISION`, so stringification yields the undefined macro's
own name instead. -/
theorem revision_unbound_not_builtin_default :
    revisionText exB0 = "ZABBIX_VERSION_REVISION" ∧
    revisionText exB0 ∉ builtinDefaults ∧
    cstr (VER_FILEVERSION_STR { exB0 with
        major := some "7", minor := some "2", patch := some "5" }) =
      "7.2.5.ZABBIX_VERSION_REVISION" := by
  refine ⟨rfl, by decide, by decide⟩

/-- C4 (amended): every component guarded by an `#ifndef` block
(file description, major, minor, patch, rc tag, rc ordinal, license years)
resolves to the externally pre-bound value exactly when one is bound and to
its built-in placeholder default when wholly unbound; the revision component
also reproduces a pre-bound value exactly, but it has no built-in default —
when unbound its text is the stringified macro name
"ZABBIX_VERSION_REVISION", which is none of the built-in defaults. -/
theorem define_once_if_absent (b : Bindings) :
    (∀ v, b.fileDescription = some v → fileDescriptionText b = v) ∧
    (b.fileDescription = none → fileDescriptionText b = "\x7bVER_FILEDESCRIPTION_STR\x7d") ∧
    (∀ v, b.major = some v → majorText b = v) ∧
    (b.major = none → majorText b = "\x7bZABBIX_VERSION_MAJOR\x7d") ∧
    (∀ v, b.minor = some v → minorText b = v) ∧
    (b.minor = none → minorText b = "\x7bZABBIX_VERSION_MINOR\x7d") ∧
    (∀ v, b.patch = some v → patchText b = v) ∧
    (b.patch = none → patchText b = "\x7bZABBIX_VERSION_PATCH\x7d") ∧
    (∀ v, b.rc = some v → rcText b = v) ∧
    (b.rc = none → rcText b = "\x7bZABBIX_VERSION_RC\x7d") ∧
    (∀ v, b.rcNum = some v → rcNumText b = v) ∧
    (b.rcNum = none → rcNumText b = "\x7bZABBIX_RC_NUM\x7d") ∧
    (∀ v, b.licenseYears = some v → licenseYearsText b = v) ∧
    (b.licenseYears = none → licenseYearsText b = "\x7bZABBIX_LICENSE_YEARS\x7d") ∧
    (∀ v, b.revision = some v → revisionText b = v) ∧
    (b.revision = none →
      revisionText b = "ZABBIX_VERSION_REVISION" ∧ revisionText b ∉ builtinDefaults) := by
  refine ⟨?_, ?_, ?_, ?_, ?_, ?_, ?_, ?_, ?_, ?_, ?_, ?_, ?_, ?_, ?_, ?_⟩
  · intro v hv; simp [fileDescriptionText, hv]
  · intro hv; simp [fileDescriptionText, hv]
  · intro v hv; simp [majorText, hv]
  · intro hv; simp [majorText, hv]
  · intro v hv; simp [minorText, hv]
  · intro hv; simp [minorText, hv]
  · intro v hv; simp [patchText, hv]
  · intro hv; simp [patchText, hv]
  · intro v hv; simp [rcText, hv]
  · intro hv; simp [rcText, hv]
  · intro v hv; simp [rcNumText, hv]
  · intro hv; simp [rcNumText, hv]
  · intro v hv; simp [licenseYearsText, hv]
  · intro hv; simp [licenseYearsText, hv]
  · intro v hv; simp [revisionText, hv]
  · intro hv
    refine ⟨by simp [revisionText, hv], ?_⟩
    simp only [revisionText, hv, Option.getD_none]
    decide

/-- Witness for amended C4: a pre-bound major is reproduced exactly, an
unbound rc tag takes its placeholder default, and an unbound revision
stringifies to the macro name. -/
theorem define_once_if_absent_witness :
    majorText exB1 = "7" ∧
    rcText exB6 = "\x7bZABBIX_VERSION_RC\x7d" ∧
    revisionText exB0 = "ZABBIX_VERSION_REVISION" := by
  obtain ⟨-, -, hmaj, -, -, -, -, -, -, -, -, -, -, -, -, -⟩ := define_once_if_absent exB1
  obtain ⟨-, -, -, -, -, -, -, -, -, hrc, -, -, -, -, -, -⟩ := define_once_if_absent exB6
  obtain ⟨-, -, -, -, -, -, -, -, -, -, -, -, -, -, -, hrev⟩ := define_once_if_absent exB0
  exact ⟨hmaj "7" rfl, hrc rfl, (hrev rfl).1⟩

theorem parse_text_none (o : Option String) (dflt : String)
    (hd : isNumeral dflt = false)
    (h : o = none ∨ ∃ s, o = some s ∧ isNumeral s = false) :
    parseNat? (o.getD dflt) = none := by
  rcases h with h | ⟨s, hs, hn⟩
  · rw [h]; simp [parseNat?, hd]
  · rw [hs]; simp [parseNat?, hn]

/-- C5: whenever a required numeric component (major, minor, patch or
rc-ordinal) is absent — in which case the macro layer leaves only the
non-numeric `\x7b...\x7d` placeholder — or is bound to a text that is not a
non-negative integer numeral (negative, non-integral, non-numeric), the
resolver fails with `InvalidComponent`: no numeric default is substituted and
no descriptor, partial or otherwise, is returned. -/
theorem resolve_invalid_component (b : Bindings)
    (h : (b.major = none ∨ ∃ s, b.major = some s ∧ isNumeral s = false) ∨
         (b.minor = none ∨ ∃ s, b.minor = some s ∧ isNumeral s = false) ∨
         (b.patch = none ∨ ∃ s, b.patch = some s ∧ isNumeral s = false) ∨
         (b.rcNum = none ∨ ∃ s, b.rcNum = some s ∧ isNumeral s = false)) :
    resolve b = Except.error ResolveError.invalidComponent ∧
    ∀ d, resolve b ≠ Except.ok d := by
  have hnone : parseNat? (majorText b) = none ∨ parseNat? (minorText b) = none ∨
      parseNat? (patchText b) = none ∨ parseNat? (rcNumText b) = none := by
    rcases h with h | h | h | h
    · exact Or.inl (parse_text_none b.major _ (by decide) h)
    · exact Or.inr (Or.inl (parse_text_none b.minor _ (by decide) h))
    · exact Or.inr (Or.inr (Or.inl (parse_text_none b.patch _ (by decide) h)))
    · exact Or.inr (Or.inr (Or.inr (parse_text_none b.rcNum _ (by decide) h)))
  have herr : resolve b = Except.error ResolveError.invalidComponent := by
    unfold resolve
    cases hM : parseNat? (majorText b) <;>
      cases hm : parseNat? (minorText b) <;>
        cases hp : parseNat? (patchText b) <;>
          cases hr : parseNat? (rcNumText b) <;>
            simp_all
  refine ⟨herr, fun d hd => ?_⟩
  rw [herr] at hd
  exact absurd hd (by simp)

/-- Witness for C5: a negative major component makes the resolver fail. -/
theorem resolve_invalid_component_witness :
    resolve exB5 = Except.error ResolveError.invalidComponent :=
  (resolve_invalid_component exB5 (Or.inl (Or.inr ⟨"-1", rfl, by decide⟩))).1

/-- C6: when the required numeric components are valid, leaving the optional
rc-tag and license-years components unbound never causes an error — the
resolver substitutes their fixed built-in placeholder literals and still
returns a complete descriptor. -/
theorem optional_absent_no_error (b : Bindings)
    (hM : isNumeral (majorText b) = true) (hm : isNumeral (minorText b) = true)
    (hp : isNumeral (patchText b) = true) (hr : isNumeral (rcNumText b) = true)
    (hrc : b.rc = none) (hly : b.licenseYears = none) :
    resolve b = Except.ok (mkDescriptor b (natOfDigits (majorText b).data)
      (natOfDigits (minorText b).data) (natOfDigits (patchText b).data)
      (natOfDigits (rcNumText b).data)) ∧
    VER_PRODUCTVERSION_STR b =
      majorText b ++ "." ++ minorText b ++ "." ++ patchText b ++
        "\x7bZABBIX_VERSION_RC\x7d" ++ "\x00" ∧
    VER_LEGALCOPYRIGHT_STR b =
      "Copyright (C) " ++ "\x7bZABBIX_LICENSE_YEARS\x7d" ++ " " ++ VER_COMPANYNAME_STR := by
  have pM : parseNat? (majorText b) = some (natOfDigits (majorText b).data) := by
    simp [parseNat?, hM]
  have pm : parseNat? (minorText b) = some (natOfDigits (minorText b).data) := by
    simp [parseNat?, hm]
  have pp : parseNat? (patchText b) = some (natOfDigits (patchText b).data) := by
    simp [parseNat?, hp]
  have pr : parseNat? (rcNumText b) = some (natOfDigits (rcNumText b).data) := by
    simp [parseNat?, hr]
  refine ⟨?_, ?_, ?_⟩
  · unfold resolve
    rw [pM, pm, pp, pr]
  · rw [VER_PRODUCTVERSION_STR, ZBX_STR, ZBX_STR, ZBX_STR]
    simp [rcText, hrc]
  · rw [VER_LEGALCOPYRIGHT_STR]
    simp [licenseYearsText, hly]

/-- Witness for C6 at concrete bindings with the rc tag and license years
unbound and valid numeric components. -/
theorem optional_absent_no_error_witness :
    resolve exB6 = Except.ok (mkDescriptor exB6 (natOfDigits (majorText exB6).data)
      (natOfDigits (minorText exB6).data) (natOfDigits (patchText exB6).data)
      (natOfDigits (rcNumText exB6).data)) ∧
    VER_PRODUCTVERSION_STR exB6 =
      majorText exB6 ++ "." ++ minorText exB6 ++ "." ++ patchText exB6 ++
        "\x7bZABBIX_VERSION_RC\x7d" ++ "\x00" ∧
    VER_LEGALCOPYRIGHT_STR exB6 =
      "Copyright (C) " ++ "\x7bZABBIX_LICENSE_YEARS\x7d" ++ " " ++ VER_COMPANYNAME_STR :=
  optional_absent_no_error exB6 (by decide) (by decide) (by decide) (by decide) rfl rfl
